import Mathlib

/-
Verification of the substrate writer core (src/chains/substrate/writer.go)
against its natural-language specification.

The Go source is shallowly embedded: big.Int arithmetic becomes Int with
Euclidean division (Go's big.Int.Div/Mod are Euclidean), byte slices become
List Nat, Go strings stay String, maps become lists of keys, and the
stateful loops of ResolveMessage / redeemTx / submitTx are modelled as
explicit step functions whose results record the action the code takes
(sleep, submit, break, continue, log).
-/

namespace Bscdot

/-- Chain identifiers recognized by the writer (config.Polkadot, config.Kusama,
config.ChainXBTC, config.ChainXPCX); `other` stands for any further id. -/
inductive ChainId
| polkadot
| kusama
| chainXBTC
| chainXPCX
| other (code : Nat)
deriving DecidableEq

/-- big.Int(0).SetBytes: interpret a byte slice as a big-endian unsigned
integer (writer.go line 219). -/
def setBytes (bs : List Nat) : Nat :=
  bs.foldl (fun acc b => acc * 256 + b) 0

/-- Unit divisors, writer.go lines 30-35. -/
def oneKSM : Int := 1000000

def oneDOT : Int := 100000000

def oneXBTC : Int := 10000000000

def onePCX : Int := 10000000000

/-- writer.go line 37. -/
def xRole : Nat := 255

/-- Modelled from the spec: ChainX asset id constant (declared outside
src/, in shared code); its concrete value is irrelevant to the claims. -/
def XBTC : Nat := 1

/-- Fee configuration constants FixedDOTFee, FixedKSMFee, FeeRate (declared
outside src/, in the config package); kept as parameters of the model. -/
structure FeeConfig where
  fixedDOTFee : Int
  fixedKSMFee : Int
  feeRate : Int
deriving DecidableEq

/-- Modelled from the spec: the MultiSignTx result type of redeemTx
(declared outside src/): sentinels NotExecuted, YesVoted, AmountError and a
real transaction value carrying origin block number and extrinsic index. -/
inductive MultiSignTx
| notExecuted
| yesVoted
| amountError
| tx (blockNumber : Int) (multiSignTxId : Int)
deriving DecidableEq

/-- Modelled from the spec: the listener's MultiSigAsMulti record (declared
outside src/); only the fields writer.go reads are modelled: Executed,
Others (approval rounds, each a list of signatory ids), DestAddress,
DestAmount, and OriginMsTx's BlockNumber / MultiSignTxId. -/
structure MultiSigAsMulti where
  executed : Bool
  others : List (List String)
  destAddress : String
  destAmount : String
  originBlockNumber : Int
  originMultiSignTxId : Int
deriving DecidableEq

/-- Inner loop of isFinish (writer.go lines 544-552): isVote starts true and
is cleared when a signatory equals this relayer's key. -/
def isVote (relayerKey : String) (others : List String) : Bool :=
  others.all (fun signatory => signatory != relayerKey)

/-- isFinish (writer.go lines 536-561): executed records return the origin
transaction; otherwise the first approval list whose signatories do not
include this relayer yields YesVoted; else NotExecuted. -/
def isFinish (relayerKey : String) (ms : MultiSigAsMulti) : Bool × MultiSignTx :=
  if ms.executed then
    (true, MultiSignTx.tx ms.originBlockNumber ms.originMultiSignTxId)
  else if ms.others.any (fun others => isVote relayerKey others) then
    (true, MultiSignTx.yesVoted)
  else
    (false, MultiSignTx.notExecuted)

/-- Polkadot branch of redeemTx's amount conversion (writer.go lines
228-241): (receiveAmount, fee, actualAmount); Go's big.Int.Div is Euclidean
division, hence Int.ediv. -/
def polkadotActual (cfg : FeeConfig) (amount : Int) : Int × Int × Int :=
  let receiveAmount := Int.ediv amount oneDOT
  let fixedFee := cfg.fixedDOTFee
  let additionalFee := Int.ediv receiveAmount cfg.feeRate
  let fee := fixedFee + additionalFee
  let actualAmount := receiveAmount - fee
  (receiveAmount, fee, actualAmount)

/-- Kusama branch of redeemTx's amount conversion (writer.go lines 256-269). -/
def kusamaActual (cfg : FeeConfig) (amount : Int) : Int × Int × Int :=
  let receiveAmount := Int.ediv amount oneKSM
  let fixedFee := cfg.fixedKSMFee
  let additionalFee := Int.ediv receiveAmount cfg.feeRate
  let fee := fixedFee + additionalFee
  let actualAmount := receiveAmount - fee
  (receiveAmount, fee, actualAmount)

/-- Result of the per-destination conversion step of redeemTx: either the
AmountError rejection (actualAmount.Cmp(0) == -1) or the send amount. -/
inductive ConvertResult
| amountError
| send (actual : Int)
deriving DecidableEq

/-- The conversion and AmountError check of redeemTx per destination
(writer.go lines 228-337); the final `else` branch (line 335-337, other
chains) leaves actualAmount at its initial 0 and raises no error. -/
def computeSendAmount (cfg : FeeConfig) (dest : ChainId) (amount : Int) : ConvertResult :=
  match dest with
  | ChainId.polkadot =>
    let t := polkadotActual cfg amount
    if t.2.2 < 0 then ConvertResult.amountError else ConvertResult.send t.2.2
  | ChainId.kusama =>
    let t := kusamaActual cfg amount
    if t.2.2 < 0 then ConvertResult.amountError else ConvertResult.send t.2.2
  | ChainId.chainXBTC =>
    if Int.ediv amount oneXBTC < 0 then ConvertResult.amountError
    else ConvertResult.send (Int.ediv amount oneXBTC)
  | ChainId.chainXPCX =>
    if Int.ediv amount onePCX < 0 then ConvertResult.amountError
    else ConvertResult.send (Int.ediv amount onePCX)
  | ChainId.other _ => ConvertResult.send 0

/-- Modelled from the spec: utils.BalancesTransferKeepAliveMethod (declared
outside src/, in shared/substrate); the spec's CallBuilder maps
Polkadot/Kusama to Balances.transfer_keep_alive. -/
def balancesTransferKeepAliveMethod : String := "Balances.transfer_keep_alive"

/-- Modelled from the spec: utils.XAssetsTransferMethod (declared outside
src/, in shared/substrate). -/
def xAssetsTransferMethod : String := "XAssets.transfer"

/-- The method name the specification asserts for the ChainX-PCX branch
(spec section 4.2: legacy Balances.transfer); stated here only to compare
against the method the source actually uses. -/
def specBalancesTransferMethod : String := "Balances.transfer"

/-- One positional argument of a types.NewCall invocation. -/
inductive CallArg
| xRoleArg (value : Nat)
| addressArg (accountId : List Nat)
| multiAddressArg (accountId : List Nat)
| assetIdArg (value : Nat)
| compactArg (value : Int)
deriving DecidableEq

/-- A destination-chain call: method name and positional arguments. -/
structure Call where
  method : String
  args : List CallArg
deriving DecidableEq

/-- The inner transfer call built by redeemTx per destination (writer.go
lines 211-337): Polkadot/Kusama use `method` (BalancesTransferKeepAliveMethod)
with (multiAddressRecipient, sendAmount); ChainXBTC uses `xMethod` with
(xRole, addressRecipient, assetId, sendAmount); ChainXPCX uses `method`
again (line 327) with (xRole, addressRecipient, sendAmount); other
destinations build nothing. -/
def buildInnerCall (dest : ChainId) (recipient : List Nat) (actual : Int) : Option Call :=
  match dest with
  | ChainId.polkadot =>
    some ⟨balancesTransferKeepAliveMethod,
      [CallArg.multiAddressArg recipient, CallArg.compactArg actual]⟩
  | ChainId.kusama =>
    some ⟨balancesTransferKeepAliveMethod,
      [CallArg.multiAddressArg recipient, CallArg.compactArg actual]⟩
  | ChainId.chainXBTC =>
    some ⟨xAssetsTransferMethod,
      [CallArg.xRoleArg xRole, CallArg.addressArg recipient,
       CallArg.assetIdArg XBTC, CallArg.compactArg actual]⟩
  | ChainId.chainXPCX =>
    some ⟨balancesTransferKeepAliveMethod,
      [CallArg.xRoleArg xRole, CallArg.addressArg recipient, CallArg.compactArg actual]⟩
  | ChainId.other _ => none

/-- The fields of the Relayer value that writer.go reads in the claims'
code: currentRelayer, totalRelayers and kr.PublicKey. -/
structure Relayer where
  currentRelayer : Nat
  totalRelayers : Nat
  relayerKey : String
deriving DecidableEq

/-- Round (blockHeight, blockRound) as produced by getRound. -/
structure Round where
  blockHeight : Nat
  blockRound : Nat
deriving DecidableEq

/-- Modulus of Go's uint64 arithmetic. -/
def UINT64MOD : Nat := 2 ^ 64

/-- writer.go line 340: processRound := (w.relayer.currentRelayer +
uint64(m.DepositNonce)) % w.relayer.totalRelayers, with uint64 wraparound
on the addition. -/
def processRound (currentRelayer nonce totalRelayers : Nat) : Nat :=
  ((currentRelayer + nonce) % UINT64MOD) % totalRelayers

/-- Success path of getRound (writer.go lines 524-533): blockRound is the
finalized block height modulo totalRelayers. -/
def getRoundOk (totalRelayers blockHeight : Nat) : Round :=
  ⟨blockHeight, blockHeight % totalRelayers⟩

/-- getRound (writer.go lines 512-534) with its two RPC calls made
explicit. A failed GetFinalizedHead is only logged, and the zero-value hash
is passed on (List.replicate 32 0); a failed GetHeader is only logged and
leaves finalizedHeader nil, so reading finalizedHeader.Number panics,
modelled as none. -/
def getRoundRpc (totalRelayers : Nat) (finalizedHead : Option (List Nat))
    (getHeader : List Nat → Option Nat) : Option Round :=
  let finalizedHash := finalizedHead.getD (List.replicate 32 0)
  match getHeader finalizedHash with
  | none => none
  | some blockNumber => some (getRoundOk totalRelayers blockNumber)

/-- maybeTimePoint: []byte (empty, initiate) or TimePointSafe32 (approve). -/
inductive TimePoint
| empty
| at_ (height : Int) (index : Int)
deriving DecidableEq

/-- The scan over w.listener.msTxAsMulti (writer.go lines 344-372): the
first record matching on (DestAddress, DestAmount) either finishes redeemTx
(isFinish true) or fixes the timepoint and weight and breaks; non-matching
records reset maybeTimePoint to []byte; an exhausted or empty table leaves
(empty timepoint, weight 0). -/
def scanMsTxTable (relayerKey destAddress destAmount : String) (maxWeightCfg : Nat) :
    List MultiSigAsMulti → MultiSignTx ⊕ (TimePoint × Nat)
  | [] => Sum.inr (TimePoint.empty, 0)
  | ms :: rest =>
    if ms.destAddress = destAddress ∧ ms.destAmount = destAmount then
      if (isFinish relayerKey ms).1 then Sum.inl (isFinish relayerKey ms).2
      else Sum.inr (TimePoint.at_ ms.originBlockNumber ms.originMultiSignTxId, maxWeightCfg)
    else scanMsTxTable relayerKey destAddress destAmount maxWeightCfg rest

/-- Action taken by one iteration of redeemTx's round loop. -/
inductive RoundAction
| sleepRound
| finishRound (result : MultiSignTx)
| submitRound (timePoint : TimePoint) (maxWeight : Nat)
deriving DecidableEq

/-- One iteration of redeemTx's round loop (writer.go lines 339-396): on
this relayer's round the msTxAsMulti table is scanned and the multisig call
is submitted (or redeemTx returns a finished result); otherwise the
coordinator sleeps one RoundInterval. -/
def redeemRoundStep (relayer : Relayer) (nonce : Nat) (maxWeightCfg : Nat)
    (msTxTable : List MultiSigAsMulti) (destAddress destAmount : String)
    (round : Round) : RoundAction :=
  if round.blockRound = processRound relayer.currentRelayer nonce relayer.totalRelayers then
    match scanMsTxTable relayer.relayerKey destAddress destAmount maxWeightCfg msTxTable with
    | Sum.inl result => RoundAction.finishRound result
    | Sum.inr (tp, mw) => RoundAction.submitRound tp mw
  else
    RoundAction.sleepRound

/-- RoundInterval = time.Second * 6 in nanoseconds (writer.go line 28). -/
def roundInterval : Nat := 6 * 1000000000

/-- Action of ResolveMessage's outer retry loop after a redeemTx attempt. -/
inductive LoopAction
| breakLoop
| continueLoop (sleepNanos : Nat)
deriving DecidableEq

/-- Handling of redeemTx's result by ResolveMessage's outer loop (writer.go
lines 117-170): AmountError breaks; YesVoted sleeps
RoundInterval * totalRelayers / 2 and continues; an executed transaction
(neither YesVoted nor NotExecuted nor AmountError) breaks; everything else
continues with no extra sleep. -/
def handleRedeemResult (totalRelayers : Nat) (isFinished : Bool)
    (currentTx : MultiSignTx) : LoopAction :=
  if isFinished then
    if currentTx = MultiSignTx.amountError then
      LoopAction.breakLoop
    else if currentTx = MultiSignTx.yesVoted then
      LoopAction.continueLoop (roundInterval * totalRelayers / 2)
    else if currentTx ≠ MultiSignTx.notExecuted then
      LoopAction.breakLoop
    else
      LoopAction.continueLoop 0
  else
    LoopAction.continueLoop 0

/-- The in-flight key (writer.go lines 92-96): DepositNonce plus the raw
payload bytes, DestAddress from Payload[1] and DestAmount from Payload[0]. -/
structure Dest where
  depositNonce : Nat
  destAddress : List Nat
  destAmount : List Nat
deriving DecidableEq

/-- An inbound msg.Message as writer.go reads it: deposit nonce, source and
destination chain ids, Payload[0] (amount bytes) and Payload[1] (recipient
account bytes). -/
structure Message where
  depositNonce : Nat
  source : ChainId
  destination : ChainId
  amountBytes : List Nat
  recipientBytes : List Nat
deriving DecidableEq

/-- The Dest key ResolveMessage builds for a message (writer.go lines 92-96). -/
def destKeyOf (m : Message) : Dest :=
  ⟨m.depositNonce, m.recipientBytes, m.amountBytes⟩

/-- The repeat test of checkRepeat (writer.go lines 183-187): some in-flight
key has a different deposit nonce but the same amount and recipient. -/
def isRepeat (messages : List Dest) (m : Message) : Bool :=
  messages.any (fun dest =>
    dest.depositNonce != m.depositNonce
      && dest.destAmount == m.amountBytes
      && dest.destAddress == m.recipientBytes)

/-- Observable events of one ResolveMessage call, in program order. -/
inductive ResolveEvent
| repeatGateEntered
| repeatGateSlept
| notMine
| markProcessing (key : Dest)
| spawnCoordinator
deriving DecidableEq

/-- ResolveMessage (writer.go lines 82-175): w.checkRepeat(m) runs first
(line 83) and sleeps while the repeat test holds; only then is the
destination compared against the listener's chain id (line 85); a foreign
message returns false without touching w.messages; an accepted message is
marked in-flight and a coordinator goroutine is spawned. Returns (accepted,
event trace, new in-flight set). -/
def resolveMessage (chainId : ChainId) (messages : List Dest) (m : Message) :
    Bool × List ResolveEvent × List Dest :=
  let gateTrace := ResolveEvent.repeatGateEntered ::
    (if isRepeat messages m then [ResolveEvent.repeatGateSlept] else [])
  if m.destination ≠ chainId then
    (false, gateTrace ++ [ResolveEvent.notMine], messages)
  else
    (true,
     gateTrace ++ [ResolveEvent.markProcessing (destKeyOf m), ResolveEvent.spawnCoordinator],
     destKeyOf m :: messages)

/-- Result of one iteration of submitTx's retry loop. -/
structure SubmitIterResult where
  logsSubmitFailed : Bool
  next : Option Int
deriving DecidableEq

/-- One iteration of submitTx's retry loop (writer.go lines 424-508): when
retryTimes == 0 the message `submit Tx failed, check it` is printed, but
there is no break, so the iteration still runs; a failed RPC step
(metadata, genesis hash, runtime version, storage key, account info)
decrements retryTimes and continues; a fully successful attempt reaches the
final break (next = none). -/
def submitIter (retryTimes : Int) (rpcFails : Bool) : SubmitIterResult :=
  ⟨retryTimes == 0, if rpcFails then some (retryTimes - 1) else none⟩

/-- The retry counter after n iterations of submitTx's loop when every RPC
attempt fails; none would mean the loop broke out. -/
def submitLoopCounter (r0 : Int) : Nat → Option Int
  | 0 => some r0
  | n + 1 =>
    match submitLoopCounter r0 n with
    | some r => (submitIter r true).next
    | none => none

/-- Sample relayer public key for concrete instances. -/
def sampleKey : String := "relayerPublicKey"

/-- Sample hex destination address for concrete instances. -/
def sampleAddr : String := "0xabcdef"

/-- Sample destination amount string for concrete instances. -/
def sampleAmt : String := "998"

/-- Sample fee configuration: FixedDOTFee = 0, FixedKSMFee = 0, FeeRate = 1000. -/
def cfgSample : FeeConfig := ⟨0, 0, 1000⟩

/-- Sample amount bytes: big-endian encoding of 2^32 = 4294967296. -/
def byteSample : List Nat := [1, 0, 0, 0, 0]

/-- Sample executed multisig record matching (sampleAddr, sampleAmt). -/
def msExecSample : MultiSigAsMulti := ⟨true, [], sampleAddr, sampleAmt, 7, 2⟩

/-- Sample non-executed record with a single empty approval list. -/
def msVotedSample : MultiSigAsMulti := ⟨false, [[]], sampleAddr, sampleAmt, 0, 0⟩

/-- Sample in-flight key: nonce 1, recipient bytes [2], amount bytes [3]. -/
def conflictDest : Dest := ⟨1, [2], [3]⟩

/-- Sample foreign-destination message colliding with conflictDest on
(recipient, amount) under a different nonce. -/
def msgConflict : Message := ⟨2, ChainId.polkadot, ChainId.kusama, [3], [2]⟩

/-- Sample foreign-destination message with no collision. -/
def msgSampleOther : Message := ⟨9, ChainId.polkadot, ChainId.kusama, [1], [2]⟩

theorem isVote_eq_true_iff (relayerKey : String) (l : List String) :
    isVote relayerKey l = true ↔ relayerKey ∉ l := by
  simp only [isVote, List.all_eq_true, bne_iff_ne, ne_eq]
  constructor
  · intro h hmem
    exact h relayerKey hmem rfl
  · intro h s hs heq
    exact h (heq ▸ hs)

theorem scanMsTxTable_executed (relayerKey destAddress destAmount : String)
    (maxWeightCfg : Nat) :
    ∀ (table : List MultiSigAsMulti) (ms : MultiSigAsMulti),
      ms ∈ table → ms.destAddress = destAddress → ms.destAmount = destAmount →
      ms.executed = true →
      (∀ ms2 ∈ table, ms2.destAddress = destAddress → ms2.destAmount = destAmount → ms2 = ms) →
      scanMsTxTable relayerKey destAddress destAmount maxWeightCfg table
        = Sum.inl (MultiSignTx.tx ms.originBlockNumber ms.originMultiSignTxId)
  | [], ms, hmem, _, _, _, _ => absurd hmem (List.not_mem_nil ms)
  | hd :: rest, ms, hmem, hA, hB, hexec, huniq => by
    by_cases hhd : hd.destAddress = destAddress ∧ hd.destAmount = destAmount
    · have hEq : hd = ms := huniq hd (List.mem_cons_self hd rest) hhd.1 hhd.2
      subst hEq
      simp [scanMsTxTable, hhd, isFinish, hexec]
    · have hms : ms ∈ rest := by
        rcases List.mem_cons.mp hmem with h | h
        · exact absurd ⟨h ▸ hA, h ▸ hB⟩ hhd
        · exact h
      have ih := scanMsTxTable_executed relayerKey destAddress destAmount maxWeightCfg rest ms
        hms hA hB hexec (fun ms2 h2 => huniq ms2 (List.mem_cons_of_mem hd h2))
      simp [scanMsTxTable, hhd, ih]

/-- Claim C1: redeemTx submits the multisig extrinsic only on rounds where
the finalized block height modulo totalRelayers equals processRound, the
source's (currentRelayer + depositNonce) mod totalRelayers (computed in
uint64 arithmetic, line 340); on any round where that equality fails the
step is a single RoundInterval sleep with no submission. -/
theorem redeemTx_submits_only_on_my_round (relayer : Relayer) (nonce maxWeightCfg : Nat)
    (msTxTable : List MultiSigAsMulti) (destAddress destAmount : String)
    (blockHeight : Nat) (hN : 0 < relayer.totalRelayers) :
    ((∃ tp mw, redeemRoundStep relayer nonce maxWeightCfg msTxTable destAddress destAmount
        (getRoundOk relayer.totalRelayers blockHeight) = RoundAction.submitRound tp mw) →
      blockHeight % relayer.totalRelayers
        = processRound relayer.currentRelayer nonce relayer.totalRelayers) ∧
    (blockHeight % relayer.totalRelayers
        ≠ processRound relayer.currentRelayer nonce relayer.totalRelayers →
      redeemRoundStep relayer nonce maxWeightCfg msTxTable destAddress destAmount
        (getRoundOk relayer.totalRelayers blockHeight) = RoundAction.sleepRound) := by
  constructor
  · intro hsub
    obtain ⟨tp, mw, hEq⟩ := hsub
    by_contra hne
    simp [redeemRoundStep, getRoundOk, hne] at hEq
  · intro hne
    simp [redeemRoundStep, getRoundOk, hne]

theorem redeemTx_submits_only_on_my_round_witness :
    redeemRoundStep ⟨0, 3, sampleKey⟩ 0 0 [] sampleAddr sampleAmt (getRoundOk 3 1)
      = RoundAction.sleepRound :=
  (redeemTx_submits_only_on_my_round ⟨0, 3, sampleKey⟩ 0 0 [] sampleAddr sampleAmt 1
    (by decide)).2 (by decide)

/-- Claim C2: for Polkadot-destination messages the conversion computes
received = wrapped / 10^8 (Euclidean integer division of big.Int),
fee = FixedDOTFee + received / FeeRate and actual = received - fee, so
actual + fee = wrapped / 10^8; stated under the claim's hypothesis
wrapped / 10^8 >= FixedDOTFee and a positive FeeRate. -/
theorem redeemTx_polkadot_fee_equation (cfg : FeeConfig) (amountBytes : List Nat)
    (hRate : 0 < cfg.feeRate)
    (hGe : cfg.fixedDOTFee ≤ Int.ediv (setBytes amountBytes : Int) oneDOT) :
    (polkadotActual cfg (setBytes amountBytes)).1
      = Int.ediv (setBytes amountBytes : Int) oneDOT ∧
    (polkadotActual cfg (setBytes amountBytes)).2.1
      = cfg.fixedDOTFee
        + Int.ediv (polkadotActual cfg (setBytes amountBytes)).1 cfg.feeRate ∧
    (polkadotActual cfg (setBytes amountBytes)).2.2
      = (polkadotActual cfg (setBytes amountBytes)).1
        - (polkadotActual cfg (setBytes amountBytes)).2.1 ∧
    (polkadotActual cfg (setBytes amountBytes)).2.2
        + (polkadotActual cfg (setBytes amountBytes)).2.1
      = Int.ediv (setBytes amountBytes : Int) oneDOT := by
  refine ⟨rfl, rfl, rfl, ?_⟩
  simp only [polkadotActual]
  ring

theorem redeemTx_polkadot_fee_equation_witness :
    0 < cfgSample.feeRate ∧
    cfgSample.fixedDOTFee ≤ Int.ediv (setBytes byteSample : Int) oneDOT ∧
    (polkadotActual cfgSample (setBytes byteSample)).2.2
        + (polkadotActual cfgSample (setBytes byteSample)).2.1
      = Int.ediv (setBytes byteSample : Int) oneDOT :=
  ⟨by decide, by decide,
   (redeemTx_polkadot_fee_equation cfgSample byteSample (by decide) (by decide)).2.2.2⟩

/-- Claim C3: when the matching msTxAsMulti record is executed (matching is
on (DestAddress, DestAmount); the spec rules out ties, encoded here as a
uniqueness hypothesis over the table), the round step of redeemTx returns
the record's origin transaction (block number and extrinsic index) without
submitting, and the outer loop then breaks. -/
theorem redeemTx_executed_record_terminates (relayer : Relayer) (nonce maxWeightCfg : Nat)
    (msTxTable : List MultiSigAsMulti) (destAddress destAmount : String)
    (round : Round) (ms : MultiSigAsMulti)
    (hmem : ms ∈ msTxTable)
    (hA : ms.destAddress = destAddress) (hB : ms.destAmount = destAmount)
    (hexec : ms.executed = true)
    (huniq : ∀ ms2 ∈ msTxTable,
      ms2.destAddress = destAddress → ms2.destAmount = destAmount → ms2 = ms)
    (hround : round.blockRound
      = processRound relayer.currentRelayer nonce relayer.totalRelayers) :
    redeemRoundStep relayer nonce maxWeightCfg msTxTable destAddress destAmount round
      = RoundAction.finishRound (MultiSignTx.tx ms.originBlockNumber ms.originMultiSignTxId) ∧
    handleRedeemResult relayer.totalRelayers true
        (MultiSignTx.tx ms.originBlockNumber ms.originMultiSignTxId)
      = LoopAction.breakLoop := by
  have hscan := scanMsTxTable_executed relayer.relayerKey destAddress destAmount maxWeightCfg
    msTxTable ms hmem hA hB hexec huniq
  constructor
  · simp [redeemRoundStep, hround, hscan]
  · simp [handleRedeemResult]

theorem redeemTx_executed_record_terminates_witness :
    redeemRoundStep ⟨1, 3, sampleKey⟩ 4 0 [msExecSample] sampleAddr sampleAmt ⟨5, 2⟩
      = RoundAction.finishRound (MultiSignTx.tx 7 2) ∧
    handleRedeemResult 3 true (MultiSignTx.tx 7 2) = LoopAction.breakLoop :=
  redeemTx_executed_record_terminates ⟨1, 3, sampleKey⟩ 4 0 [msExecSample]
    sampleAddr sampleAmt ⟨5, 2⟩ msExecSample (by decide) (by decide) (by decide)
    (by decide) (by decide) (by decide)

/-- Claim C4 counterexample: a matched, non-executed record with an empty
Others list. The claim's condition (no approval list contains this
relayer's key) holds vacuously, yet isFinish returns NotExecuted, not
YesVoted: the code tests whether SOME approval list omits the key, not
whether NONE contains it. -/
theorem isFinish_none_contains_counterexample :
    (MultiSigAsMulti.others ⟨false, [], sampleAddr, sampleAmt, 0, 0⟩).all
        (fun l => !(l.contains sampleKey)) = true ∧
    isFinish sampleKey ⟨false, [], sampleAddr, sampleAmt, 0, 0⟩
      = (false, MultiSignTx.notExecuted) := by
  constructor
  · rfl
  · rfl

/-- Claim C4 (amended): for a matched, non-executed record, isFinish
returns YesVoted if and only if AT LEAST ONE of the record's approval lists
(others) does not contain this relayer's public key; and on YesVoted the
outer loop sleeps RoundInterval * totalRelayers / 2 and continues without
submitting. -/
theorem isFinish_yesVoted_iff_some_list_without_self (relayerKey : String)
    (ms : MultiSigAsMulti) (totalRelayers : Nat) (hexec : ms.executed = false) :
    (isFinish relayerKey ms = (true, MultiSignTx.yesVoted)
      ↔ ∃ l ∈ ms.others, relayerKey ∉ l) ∧
    handleRedeemResult totalRelayers true MultiSignTx.yesVoted
      = LoopAction.continueLoop (roundInterval * totalRelayers / 2) := by
  constructor
  · constructor
    · intro hEq
      by_cases h : ms.others.any (fun others => isVote relayerKey others)
      · obtain ⟨l, hl, hv⟩ := List.any_eq_true.mp h
        exact ⟨l, hl, (isVote_eq_true_iff relayerKey l).mp hv⟩
      · simp [isFinish, hexec, h] at hEq
    · intro hex
      obtain ⟨l, hl, hnot⟩ := hex
      have h : ms.others.any (fun others => isVote relayerKey others) = true :=
        List.any_eq_true.mpr ⟨l, hl, (isVote_eq_true_iff relayerKey l).mpr hnot⟩
      simp [isFinish, hexec, h]
  · simp [handleRedeemResult]

theorem isFinish_yesVoted_iff_some_list_without_self_witness :
    isFinish sampleKey msVotedSample = (true, MultiSignTx.yesVoted) ∧
    handleRedeemResult 4 true MultiSignTx.yesVoted
      = LoopAction.continueLoop (roundInterval * 4 / 2) :=
  ⟨(isFinish_yesVoted_iff_some_list_without_self sampleKey msVotedSample 4 rfl).1.mpr
      ⟨[], by decide, by decide⟩,
   (isFinish_yesVoted_iff_some_list_without_self sampleKey msVotedSample 4 rfl).2⟩

theorem submitLoopCounter_eq (r0 : Int) : ∀ n : Nat, submitLoopCounter r0 n = some (r0 - n)
  | 0 => by simp [submitLoopCounter]
  | n + 1 => by
    rw [submitLoopCounter, submitLoopCounter_eq r0 n]
    simp [submitIter]
    ring

/-- Claim C5: the retry loop of submitTx does NOT stop when the counter
reaches zero. Under persistently failing RPC steps the counter after n
iterations is r0 - n (never a break), and the iteration at counter 0 prints
`submit Tx failed, check it` but still continues with counter -1 — the
code's own comment says `No more retries, stop submitting Tx`, yet no break
or return follows the print. -/
theorem submitTx_retry_loop_never_stops (r0 : Int) (n : Nat) :
    submitLoopCounter r0 n = some (r0 - n) ∧
    (submitIter 0 true).logsSubmitFailed = true ∧
    (submitIter 0 true).next = some (-1) :=
  ⟨submitLoopCounter_eq r0 n, by decide, by decide⟩

/-- Claim C6 counterexample: with FixedDOTFee = 1000 and FeeRate = 10000,
wrapped = 10^11 gives received = 1000, fee = 1000, actual = 0, and the
Polkadot branch ACCEPTS the redeem (send 0): the Cmp test at line 238 only
rejects strictly negative amounts, so actual == 0 is not an AmountError. -/
theorem redeemTx_zero_actual_counterexample :
    (polkadotActual ⟨1000, 0, 10000⟩ 100000000000).2.2 = 0 ∧
    computeSendAmount ⟨1000, 0, 10000⟩ ChainId.polkadot 100000000000
      = ConvertResult.send 0 ∧
    (computeSendAmount ⟨1000, 0, 10000⟩ ChainId.polkadot 100000000000
        == ConvertResult.amountError) = false := by
  refine ⟨by decide, by decide, by decide⟩

/-- Claim C6 (amended): a conversion whose actual amount is exactly zero is
accepted by redeemTx (send amount 0), for Polkadot and Kusama alike; only
strictly negative actual amounts are rejected with AmountError. -/
theorem redeemTx_zero_actual_accepted (cfg : FeeConfig) (amount : Int) :
    ((polkadotActual cfg amount).2.2 = 0 →
      computeSendAmount cfg ChainId.polkadot amount = ConvertResult.send 0) ∧
    ((kusamaActual cfg amount).2.2 = 0 →
      computeSendAmount cfg ChainId.kusama amount = ConvertResult.send 0) := by
  constructor
  · intro h
    simp [computeSendAmount, h]
  · intro h
    simp [computeSendAmount, h]

theorem redeemTx_zero_actual_accepted_witness :
    computeSendAmount ⟨1000, 0, 10000⟩ ChainId.polkadot 100000000000
      = ConvertResult.send 0 ∧
    computeSendAmount ⟨0, 1000, 10000⟩ ChainId.kusama 1000000000
      = ConvertResult.send 0 :=
  ⟨(redeemTx_zero_actual_accepted ⟨1000, 0, 10000⟩ 100000000000).1 (by decide),
   (redeemTx_zero_actual_accepted ⟨0, 1000, 10000⟩ 1000000000).2 (by decide)⟩

/-- Claim C7 counterexample: a message whose destination differs from this
writer's chain id, arriving while a conflicting (recipient, amount) key is
in flight. ResolveMessage still returns false, but the repeat gate has run
and slept (checkRepeat is called at line 83, BEFORE the destination check
at line 85), so the destination check is not step 1 and the call can block. -/
theorem resolveMessage_gate_runs_counterexample :
    (resolveMessage ChainId.polkadot [conflictDest] msgConflict).1 = false ∧
    ResolveEvent.repeatGateSlept
      ∈ (resolveMessage ChainId.polkadot [conflictDest] msgConflict).2.1 := by
  refine ⟨by decide, by decide⟩

/-- Claim C7 (amended): for every message whose destination differs from
this writer's chain id, ResolveMessage returns false and inserts nothing
into the in-flight map, but only after applying the repeat gate: checkRepeat
runs first and can block on other in-flight (recipient, amount) pairs. -/
theorem resolveMessage_not_mine_after_gate (chainId : ChainId) (messages : List Dest)
    (m : Message) (hdest : m.destination ≠ chainId) :
    (resolveMessage chainId messages m).1 = false ∧
    (resolveMessage chainId messages m).2.2 = messages ∧
    ResolveEvent.repeatGateEntered ∈ (resolveMessage chainId messages m).2.1 := by
  simp [resolveMessage, hdest]

theorem resolveMessage_not_mine_after_gate_witness :
    (resolveMessage ChainId.polkadot [] msgSampleOther).1 = false ∧
    (resolveMessage ChainId.polkadot [] msgSampleOther).2.2 = [] ∧
    ResolveEvent.repeatGateEntered
      ∈ (resolveMessage ChainId.polkadot [] msgSampleOther).2.1 :=
  resolveMessage_not_mine_after_gate ChainId.polkadot [] msgSampleOther (by decide)

/-- Claim C8 counterexample: the inner call redeemTx builds for a
ChainX-PCX destination reuses the `method` variable of line 212, i.e. the
Balances.transfer_keep_alive method name, not the Balances.transfer name
the claim asserts. -/
theorem redeemTx_pcx_method_counterexample :
    buildInnerCall ChainId.chainXPCX [1] 7
      = some ⟨balancesTransferKeepAliveMethod,
          [CallArg.xRoleArg xRole, CallArg.addressArg [1], CallArg.compactArg 7]⟩ ∧
    (balancesTransferKeepAliveMethod == specBalancesTransferMethod) = false := by
  refine ⟨rfl, by decide⟩

/-- Claim C8 (amended): for every ChainX-PCX-destination message the inner
call is the Balances.transfer_keep_alive method (the same method constant
as the Polkadot/Kusama branch) with the legacy argument shape
(xRole = 255, Address(recipient), compact(actual)). -/
theorem redeemTx_pcx_call_shape (recipient : List Nat) (actual : Int) :
    buildInnerCall ChainId.chainXPCX recipient actual
      = some ⟨balancesTransferKeepAliveMethod,
          [CallArg.xRoleArg 255, CallArg.addressArg recipient,
           CallArg.compactArg actual]⟩ :=
  rfl

/-- Claim C9: getRound does not return a never-matching sentinel on RPC
failure. When the header fetch fails, the nil finalized header is
dereferenced (modelled as none, a panic); and when only the finalized-head
fetch fails and the zero hash still resolves to a header (number 0), the
resulting round ⟨0, 0⟩ MATCHES relayer 0 at nonce 0 rather than never
matching any relayer. -/
theorem getRound_rpc_failure_no_sentinel :
    getRoundRpc 3 none (fun _ => none) = none ∧
    getRoundRpc 3 none (fun _ => some 0) = some (getRoundOk 3 0) ∧
    (getRoundOk 3 0).blockRound = processRound 0 0 3 :=
  ⟨rfl, rfl, by decide⟩

/-- Claim C10: for ChainXBTC and ChainXPCX destinations redeemTx never
returns AmountError: the amount is decoded by SetBytes as a non-negative
integer and divided by the positive divisor 10^10, so the conversion always
yields a send result (the actualAmount < 0 branch is unreachable). -/
theorem redeemTx_chainx_never_amount_error (cfg : FeeConfig) (amountBytes : List Nat) :
    computeSendAmount cfg ChainId.chainXBTC (setBytes amountBytes)
      = ConvertResult.send (Int.ediv (setBytes amountBytes : Int) oneXBTC) ∧
    computeSendAmount cfg ChainId.chainXPCX (setBytes amountBytes)
      = ConvertResult.send (Int.ediv (setBytes amountBytes : Int) onePCX) := by
  have h1 : (0 : Int) ≤ Int.ediv (setBytes amountBytes : Int) oneXBTC :=
    Int.ediv_nonneg (Int.natCast_nonneg _) (by decide)
  have h2 : (0 : Int) ≤ Int.ediv (setBytes amountBytes : Int) onePCX :=
    Int.ediv_nonneg (Int.natCast_nonneg _) (by decide)
  constructor
  · simp [computeSendAmount, not_lt.mpr h1]
  · simp [computeSendAmount, not_lt.mpr h2]

end Bscdot
